import Mathlib

/-!
Verification of the mem0-bridge program (src/mem0-bridge.py).

The program is a CLI bridge: `main` reads a command from `sys.argv`, builds a
configuration from environment variables, constructs a `Mem0Bridge`, dispatches
to one of six operations (`add_memory`, `search_memory`, `get_all_memories`,
`update_memory`, `delete_memory`, `health_check`) and prints exactly one JSON
object to standard output.

The embedding below models Python JSON values with the inductive `J`, Python
dicts with insertion-ordered association lists (`Dict`), the external `mem0`
client (`Memory.from_config` and its `add`/`search`/`get_all`/`update`/`delete`
methods) as an oracle record `Client`, exceptions with `Except String`, and the
process-level behaviour of `main` (what is printed, the exit code, and whether
an exception escaped uncaught) with `MainOut`.
-/

set_option autoImplicit false

/-- Python JSON-serialisable values. -/
inductive J where
  | null : J
  | b : Bool → J
  | i : Int → J
  | s : String → J
  | arr : List J → J
  | obj : List (String × J) → J

/-- A Python dict with string keys, as an insertion-ordered association list
with distinct keys maintained by `Dict.set`. -/
abbrev Dict := List (String × J)

/-- Lookup of a key in a dict (first matching entry). -/
def Dict.lookup (d : Dict) (k : String) : Option J :=
  match d with
  | [] => none
  | (k₁, v) :: rest => if k₁ = k then some v else Dict.lookup rest k

/-- Python `d[k] = v`: replace the value in place if the key is present
(keeping its position), otherwise append the new entry at the end. -/
def Dict.set (d : Dict) (k : String) (v : J) : Dict :=
  match d with
  | [] => [(k, v)]
  | (k₁, v₁) :: rest => if k₁ = k then (k₁, v) :: rest else (k₁, v₁) :: Dict.set rest k v

/-- Python `d.update(u)`: set every entry of `u` into `d`, left to right. -/
def Dict.updateWith (d u : Dict) : Dict :=
  u.foldl (fun acc kv => Dict.set acc kv.1 kv.2) d

/-- The `mem0` client, an external dependency: each field gives the outcome of
the corresponding `self.memory` method call (`Except.error e` models the call
raising an exception whose `str` is `e`). -/
structure Client where
  addRes : List Dict → String → Dict → Except String J
  searchRes : String → String → Int → Except String (List J)
  getAllRes : String → Except String (List J)
  updateRes : String → Dict → Except String J
  deleteRes : String → Except String J

/-- The generic error envelope built in the `except` blocks of the Bridge
methods: `\x7b"success": False, "error": str(e)\x7d`. -/
def errEnvelope (e : String) : Dict :=
  [("success", J.b false), ("error", J.s e)]

/-- The metadata dict passed to `self.memory.add` in `add_memory`, lines
104-112: start from the caller metadata (a fresh empty dict when the caller
passed `None`) and `update` it with the generated `timestamp`, fixed `source`
tag and `user_id`. -/
def mergedMetadata (metadata : Option Dict) (user_id now : String) : Dict :=
  Dict.updateWith (metadata.getD [])
    [("timestamp", J.s now), ("source", J.s "autoweave"), ("user_id", J.s user_id)]

/-- Full observable outcome of one `add_memory` call. `outcome` is
`Except.error msg` when the method raised (the not-initialized `RuntimeError`)
and `Except.ok envelope` otherwise; `clientMetadata` is the metadata dict that
was passed to `self.memory.add`, when that call was reached; since
`metadata.update(...)` mutates the dict the caller passed in place,
`callerMetadataAfter` is the value of the caller-supplied dict object after the
call (`none` when the caller passed `None`, so no caller dict exists). -/
structure AddTrace where
  outcome : Except String Dict
  clientMetadata : Option Dict
  callerMetadataAfter : Option Dict

/-- `Mem0Bridge.add_memory`, lines 96-122. `now` is the value of
`datetime.now().isoformat()`. -/
def add_memory (initialized : Bool) (c : Client) (messages : List Dict)
    (user_id : String) (metadata : Option Dict) (now : String) : AddTrace :=
  if !initialized then
    { outcome := .error "mem0 not initialized", clientMetadata := none,
      callerMetadataAfter := metadata }
  else
    let meta := mergedMetadata metadata user_id now
    let callerAfter := metadata.map (fun _ => meta)
    match c.addRes messages user_id meta with
    | .ok r =>
      { outcome := .ok [("success", J.b true), ("result", r)],
        clientMetadata := some meta, callerMetadataAfter := callerAfter }
    | .error e =>
      { outcome := .ok (errEnvelope e),
        clientMetadata := some meta, callerMetadataAfter := callerAfter }

/-- `Mem0Bridge.search_memory`, lines 124-140. -/
def search_memory (initialized : Bool) (c : Client) (query user_id : String)
    (limit : Int) : Except String Dict :=
  if !initialized then .error "mem0 not initialized"
  else
    match c.searchRes query user_id limit with
    | .ok rs => .ok [("success", J.b true), ("results", J.arr rs)]
    | .error e => .ok (errEnvelope e)

/-- `Mem0Bridge.get_all_memories`, lines 142-158. -/
def get_all_memories (initialized : Bool) (c : Client) (user_id : String) :
    Except String Dict :=
  if !initialized then .error "mem0 not initialized"
  else
    match c.getAllRes user_id with
    | .ok rs => .ok [("success", J.b true), ("results", J.arr rs)]
    | .error e => .ok (errEnvelope e)

/-- `Mem0Bridge.update_memory`, lines 160-176. -/
def update_memory (initialized : Bool) (c : Client) (memory_id : String)
    (data : Dict) : Except String Dict :=
  if !initialized then .error "mem0 not initialized"
  else
    match c.updateRes memory_id data with
    | .ok r => .ok [("success", J.b true), ("result", r)]
    | .error e => .ok (errEnvelope e)

/-- `Mem0Bridge.delete_memory`, lines 178-194. -/
def delete_memory (initialized : Bool) (c : Client) (memory_id : String) :
    Except String Dict :=
  if !initialized then .error "mem0 not initialized"
  else
    match c.deleteRes memory_id with
    | .ok r => .ok [("success", J.b true), ("result", r)]
    | .error e => .ok (errEnvelope e)

/-- `Mem0Bridge.health_check`, lines 196-222. The whole body is wrapped in a
`try`: building the `status` dict cannot raise, so the only raiser inside the
`try` is the probe `self.memory.search("test", user_id="health_check", limit=1)`,
which is only reached when `initialized` is true; an exception from it falls to
the outer `except`, which returns the generic error envelope. -/
def health_check (initialized : Bool) (c : Client) (now : String) : Dict :=
  let baseStatus : Dict :=
    [("initialized", J.b initialized), ("timestamp", J.s now),
     ("config", J.obj [("vector_store", J.s "qdrant"), ("graph_store", J.s "memgraph"),
                       ("embedder", J.s "openai")])]
  if initialized then
    match c.searchRes "test" "health_check" 1 with
    | .ok rs =>
      let status := Dict.set (Dict.set baseStatus "functional" (J.b true)) "test_result"
        (J.s ("Search test successful: " ++ toString rs.length ++ " results"))
      [("success", J.b true), ("status", J.obj status)]
    | .error e => errEnvelope e
  else
    let status := Dict.set (Dict.set baseStatus "functional" (J.b false)) "test_result"
      (J.s "mem0 not initialized")
    [("success", J.b true), ("status", J.obj status)]

/-- Extract `status.functional` from a health envelope. -/
def statusFunctional (d : Dict) : Option J :=
  match Dict.lookup d "status" with
  | some (J.obj st) => Dict.lookup st "functional"
  | _ => none

/-- Strip leading and trailing whitespace from a character list. -/
def trimChars (l : List Char) : List Char :=
  ((l.dropWhile Char.isWhitespace).reverse.dropWhile Char.isWhitespace).reverse

/-- Model of the builtin `int(s)` on a string: optional surrounding
whitespace, an optional sign, then one or more decimal digits; `none` models
the `ValueError` raised on any other input. -/
def pyInt (str : String) : Option Int :=
  let t := trimChars str.toList
  let core := match t with
    | c :: rest => if c = '-' || c = '+' then rest else t
    | [] => t
  let neg : Bool := match t with
    | c :: _ => c = '-'
    | [] => false
  if core.isEmpty then none
  else if core.all Char.isDigit then
    let n : Nat := core.foldl (fun acc ch => acc * 10 + (ch.toNat - 48)) 0
    some (if neg then -(n : Int) else (n : Int))
  else none

/-- The environment variables read by the program. A field is `none` when the
variable is unset; `os.getenv` defaults are applied at the use sites, as in the
source. -/
structure Env where
  OPENAI_API_KEY : Option String
  QDRANT_HOST : Option String
  QDRANT_PORT : Option String
  QDRANT_COLLECTION : Option String
  QDRANT_API_KEY : Option String
  MEMGRAPH_HOST : Option String
  MEMGRAPH_PORT : Option String
  MEMGRAPH_USER : Option String
  MEMGRAPH_PASSWORD : Option String
  SKIP_CONNECTIVITY_CHECK : Option String

/-- Everything external that one process run can observe: the environment,
the outcome of `Memory.from_config` (`Except.error` models it raising), the
client methods, the `json.loads` oracle (the dispatcher only ever feeds its
result to dict-consuming code, so it is typed as producing a `Dict`; a
non-dict payload surfaces later as an operation-level error, which the
oracle can model by an `Except.error`), and the `datetime.now().isoformat()`
value. -/
structure World where
  env : Env
  fromConfigOk : Except String Unit
  client : Client
  parseJson : String → Except String Dict
  now : String

/-- `Mem0Bridge._initialize_memory`, lines 59-94: raises `ValueError` when
`OPENAI_API_KEY` is unset or empty (Python truthiness of `not openai_key`);
the Qdrant connectivity check, lines 74-81, catches its own exceptions and
only logs, so it cannot affect the flag; then `Memory.from_config` decides the
outcome. Every exception is caught and leaves `initialized = False`; nothing
propagates out of construction. -/
def bridgeInitialized (w : World) : Bool :=
  match w.env.OPENAI_API_KEY with
  | none => false
  | some k =>
    if k = "" then false
    else match w.fromConfigOk with
      | .ok _ => true
      | .error _ => false

/-- The command dispatcher, the body of the `try` at lines 252-306 of `main`.
The result is the envelope printed on the success path, or `Except.error e`
when a `ValueError` (argument checks, `int` parses, unknown command), a
`json.loads` failure, or the not-initialized `RuntimeError` from a Bridge
method reaches the `except` at line 308. -/
def dispatch (initialized : Bool) (c : Client) (pj : String → Except String Dict)
    (now : String) (command : String) (args : List String) : Except String Dict :=
  if command = "add" then
    match args with
    | user_id :: message :: metaStr :: _ =>
      match pj metaStr with
      | .error e => .error e
      | .ok meta =>
        let messages : List Dict := [[("role", J.s "user"), ("content", J.s message)]]
        (add_memory initialized c messages user_id (some meta) now).outcome
    | _ => .error "Usage: add <user_id> <message> <metadata_json>"
  else if command = "search" then
    match args with
    | user_id :: query :: rest =>
      match rest with
      | [] => search_memory initialized c query user_id 10
      | l :: _ =>
        match pyInt l with
        | some limit => search_memory initialized c query user_id limit
        | none => .error ("invalid int literal: " ++ l)
    | _ => .error "Usage: search <user_id> <query> [limit]"
  else if command = "get_all" then
    match args with
    | user_id :: _ => get_all_memories initialized c user_id
    | [] => .error "Usage: get_all <user_id>"
  else if command = "update" then
    match args with
    | memory_id :: dataStr :: _ =>
      match pj dataStr with
      | .error e => .error e
      | .ok data => update_memory initialized c memory_id data
    | _ => .error "Usage: update <memory_id> <data_json>"
  else if command = "delete" then
    match args with
    | memory_id :: _ => delete_memory initialized c memory_id
    | [] => .error "Usage: delete <memory_id>"
  else if command = "health" then
    .ok (health_check initialized c now)
  else
    .error ("Unknown command: " ++ command)

/-- Process-level outcome of one run: the JSON objects printed to standard
output in order, the exit code, and whether an exception escaped `main`
uncaught (the interpreter then prints a traceback to standard error and exits
with code 1, printing nothing to standard output). -/
structure MainOut where
  printed : List Dict
  exitCode : Nat
  uncaught : Bool

/-- `main`, lines 224-310. `argv` is the full `sys.argv`, program name
included. The config dict construction at lines 231-240 runs outside any
`try`, so a `ValueError` from `int(os.getenv(..))` there escapes uncaught.
`Mem0Bridge(config)` cannot raise (see `bridgeInitialized`), so the `except`
at line 245 is dead. -/
def Mem0.main (argv : List String) (w : World) : MainOut :=
  match argv with
  | [] => { printed := [[("error", J.s "Missing command")]], exitCode := 1, uncaught := false }
  | [_] => { printed := [[("error", J.s "Missing command")]], exitCode := 1, uncaught := false }
  | _prog :: command :: args =>
    match pyInt ((w.env.QDRANT_PORT).getD "6333") with
    | none => { printed := [], exitCode := 1, uncaught := true }
    | some _ =>
      match pyInt ((w.env.MEMGRAPH_PORT).getD "7687") with
      | none => { printed := [], exitCode := 1, uncaught := true }
      | some _ =>
        match dispatch (bridgeInitialized w) w.client w.parseJson w.now command args with
        | .ok envl => { printed := [envl], exitCode := 0, uncaught := false }
        | .error e => { printed := [[("error", J.s e)]], exitCode := 1, uncaught := false }

/-- A client whose every call succeeds with fixed small values. -/
def clientOk : Client where
  addRes := fun _ _ _ => .ok (J.s "added")
  searchRes := fun _ _ _ => .ok []
  getAllRes := fun _ => .ok []
  updateRes := fun _ _ => .ok (J.s "updated")
  deleteRes := fun _ => .ok (J.s "deleted")

/-- A client whose every call raises with message `e`. -/
def clientErr (e : String) : Client where
  addRes := fun _ _ _ => .error e
  searchRes := fun _ _ _ => .error e
  getAllRes := fun _ => .error e
  updateRes := fun _ _ => .error e
  deleteRes := fun _ => .error e

/-- An environment with the OpenAI key set and everything else unset. -/
def envKeySet : Env where
  OPENAI_API_KEY := some "sk-test"
  QDRANT_HOST := none
  QDRANT_PORT := none
  QDRANT_COLLECTION := none
  QDRANT_API_KEY := none
  MEMGRAPH_HOST := none
  MEMGRAPH_PORT := none
  MEMGRAPH_USER := none
  MEMGRAPH_PASSWORD := none
  SKIP_CONNECTIVITY_CHECK := none

/-- A world in which initialization succeeds and every client call succeeds;
`json.loads` yields an empty dict on every payload. -/
def worldGood : World where
  env := envKeySet
  fromConfigOk := .ok ()
  client := clientOk
  parseJson := fun _ => .ok []
  now := "2026-01-01T00:00:00"

/-- The invariant claimed for result envelopes: a boolean `success` field and
exactly one of `result`, `results`, `error`, with `result`/`results` present
iff `success` is true and `error` present iff `success` is false. -/
def envelopeOk (d : Dict) : Bool :=
  let r := (Dict.lookup d "result").isSome
  let rs := (Dict.lookup d "results").isSome
  let er := (Dict.lookup d "error").isSome
  match Dict.lookup d "success" with
  | some (J.b true) => (r || rs) && !(r && rs) && !er
  | some (J.b false) => er && !r && !rs
  | _ => false

/-- A world whose initialization succeeds, with the given client, JSON parser
and clock. -/
def worldWith (c : Client) (pj : String → Except String Dict) (now : String) : World where
  env := envKeySet
  fromConfigOk := .ok ()
  client := c
  parseJson := pj
  now := now

/-- The world of `worldGood` except that `QDRANT_PORT` is set to a non-numeric
string. -/
def worldBadPort : World :=
  { worldGood with env := { envKeySet with QDRANT_PORT := some "abc" } }

/-- The world of `worldGood` except that `OPENAI_API_KEY` is unset. -/
def worldNoKey : World :=
  { worldGood with env := { envKeySet with OPENAI_API_KEY := none } }

/-- A client whose searches return three records. -/
def client3 : Client :=
  { clientOk with searchRes := fun _ _ _ => .ok [J.s "r1", J.s "r2", J.s "r3"] }

theorem Dict.lookup_set_self (d : Dict) (k : String) (v : J) :
    Dict.lookup (Dict.set d k v) k = some v := by
  induction d with
  | nil => simp [Dict.set, Dict.lookup]
  | cons kv rest ih =>
    obtain ⟨k₁, v₁⟩ := kv
    by_cases h : k₁ = k <;> simp [Dict.set, Dict.lookup, h, ih]

theorem Dict.lookup_set_ne (d : Dict) (k k₂ : String) (v : J) (h : k₂ ≠ k) :
    Dict.lookup (Dict.set d k v) k₂ = Dict.lookup d k₂ := by
  induction d with
  | nil => simp [Dict.set, Dict.lookup]; exact fun hk => h hk.symm
  | cons kv rest ih =>
    obtain ⟨k₁, v₁⟩ := kv
    by_cases hk : k₁ = k <;> by_cases hk₂ : k₁ = k₂ <;>
      simp_all [Dict.set, Dict.lookup]

/-- C1. As stated the claim fails: on an initialized bridge whose probe search
raises, `health_check` falls to its outer `except` and returns the generic
error envelope, with `success = false` and no `status` object. -/
theorem C1_counterexample :
    Dict.lookup (health_check true (clientErr "boom") "t") "success" = some (J.b false) ∧
    Dict.lookup (health_check true (clientErr "boom") "t") "status" = none :=
  ⟨rfl, rfl⟩

/-- C1 (amended): when the probe search does not raise, or when the bridge is
not initialized (so no probe runs), `health_check` returns an envelope with
`success = true` whose `status.functional` is true iff initialization
succeeded; when the bridge is initialized and the probe raises with message
`e`, `health_check` instead returns the generic error envelope for `e`. -/
theorem C1_health_envelope (i : Bool) (c : Client) (now : String) :
    (∀ rs, c.searchRes "test" "health_check" 1 = .ok rs →
      Dict.lookup (health_check i c now) "success" = some (J.b true) ∧
      statusFunctional (health_check i c now) = some (J.b i)) ∧
    (i = false →
      Dict.lookup (health_check i c now) "success" = some (J.b true) ∧
      statusFunctional (health_check i c now) = some (J.b false)) ∧
    (∀ e, i = true → c.searchRes "test" "health_check" 1 = .error e →
      health_check i c now = errEnvelope e) := by
  refine ⟨?_, ?_, ?_⟩ <;> cases i <;> intros <;>
    cases h : c.searchRes "test" "health_check" 1 <;>
    simp_all [health_check, statusFunctional, errEnvelope, Dict.lookup, Dict.set]

theorem C1_witness :
    Dict.lookup (health_check false (clientErr "boom") "t") "success" = some (J.b true) ∧
    statusFunctional (health_check false (clientErr "boom") "t") = some (J.b false) :=
  (C1_health_envelope false (clientErr "boom") "t").2.1 rfl

/-- C2. As stated the claim fails: the success envelope of `health_check`
carries the key `status` and none of `result`, `results`, `error`, so it
violates the exactly-one invariant. -/
theorem C2_counterexample :
    Dict.lookup (health_check true clientOk "t") "success" = some (J.b true) ∧
    envelopeOk (health_check true clientOk "t") = false :=
  ⟨rfl, rfl⟩

/-- C2 (amended): every envelope returned by the five data operations
(`add_memory`, `search_memory`, `get_all_memories`, `update_memory`,
`delete_memory`) satisfies the invariant, as does the envelope `health_check`
returns when its probe raises; the success envelope of `health_check` instead
carries `status` and is the one exception. -/
theorem C2_envelope_invariant (i : Bool) (c : Client) (msgs : List Dict)
    (uid q mid now : String) (lim : Int) (md : Option Dict) (data : Dict) :
    (∀ envl, (add_memory i c msgs uid md now).outcome = .ok envl → envelopeOk envl = true) ∧
    (∀ envl, search_memory i c q uid lim = .ok envl → envelopeOk envl = true) ∧
    (∀ envl, get_all_memories i c uid = .ok envl → envelopeOk envl = true) ∧
    (∀ envl, update_memory i c mid data = .ok envl → envelopeOk envl = true) ∧
    (∀ envl, delete_memory i c mid = .ok envl → envelopeOk envl = true) ∧
    (∀ e, c.searchRes "test" "health_check" 1 = .error e →
      envelopeOk (health_check true c now) = true) := by
  refine ⟨?_, ?_, ?_, ?_, ?_, ?_⟩
  · intro envl h
    cases i
    · simp [add_memory] at h
    · cases ha : c.addRes msgs uid (mergedMetadata md uid now) <;>
        simp [add_memory, ha] at h <;> subst h <;> rfl
  · intro envl h
    cases i
    · simp [search_memory] at h
    · cases hs : c.searchRes q uid lim <;>
        simp [search_memory, hs] at h <;> subst h <;> rfl
  · intro envl h
    cases i
    · simp [get_all_memories] at h
    · cases hg : c.getAllRes uid <;>
        simp [get_all_memories, hg] at h <;> subst h <;> rfl
  · intro envl h
    cases i
    · simp [update_memory] at h
    · cases hu : c.updateRes mid data <;>
        simp [update_memory, hu] at h <;> subst h <;> rfl
  · intro envl h
    cases i
    · simp [delete_memory] at h
    · cases hd : c.deleteRes mid <;>
        simp [delete_memory, hd] at h <;> subst h <;> rfl
  · intro e h
    simp only [health_check, h]
    rfl

theorem C2_witness :
    envelopeOk [("success", J.b true), ("results", J.arr [])] = true :=
  (C2_envelope_invariant true clientOk [] "u" "q" "m" "t" 10 none []).2.1
    [("success", J.b true), ("results", J.arr [])] rfl

/-- C3: on a non-initialized bridge every one of the five data operations
raises the `RuntimeError("mem0 not initialized")` before reaching its `try`
block, so no envelope of any kind is returned. -/
theorem C3_not_initialized_raises (c : Client) (msgs : List Dict)
    (uid q mid now : String) (lim : Int) (md : Option Dict) (data : Dict) :
    (add_memory false c msgs uid md now).outcome = .error "mem0 not initialized" ∧
    search_memory false c q uid lim = .error "mem0 not initialized" ∧
    get_all_memories false c uid = .error "mem0 not initialized" ∧
    update_memory false c mid data = .error "mem0 not initialized" ∧
    delete_memory false c mid = .error "mem0 not initialized" :=
  ⟨rfl, rfl, rfl, rfl, rfl⟩

/-- C4: on an initialized bridge, the metadata dict handed to the client add
call is the caller metadata updated with `timestamp = now`,
`source = "autoweave"` and `user_id`, these three overriding any
caller-supplied values, and every other key keeps its caller-supplied
value. -/
theorem C4_metadata_injection (c : Client) (msgs : List Dict) (uid now : String)
    (md : Option Dict) (k : String)
    (h1 : k ≠ "timestamp") (h2 : k ≠ "source") (h3 : k ≠ "user_id") :
    (add_memory true c msgs uid md now).clientMetadata = some (mergedMetadata md uid now) ∧
    Dict.lookup (mergedMetadata md uid now) "timestamp" = some (J.s now) ∧
    Dict.lookup (mergedMetadata md uid now) "source" = some (J.s "autoweave") ∧
    Dict.lookup (mergedMetadata md uid now) "user_id" = some (J.s uid) ∧
    Dict.lookup (mergedMetadata md uid now) k = Dict.lookup (md.getD []) k := by
  have hm : mergedMetadata md uid now =
      Dict.set (Dict.set (Dict.set (md.getD []) "timestamp" (J.s now))
        "source" (J.s "autoweave")) "user_id" (J.s uid) := rfl
  refine ⟨?_, ?_, ?_, ?_, ?_⟩
  · cases h : c.addRes msgs uid (mergedMetadata md uid now) <;>
      simp [add_memory, h]
  all_goals rw [hm]
  · rw [Dict.lookup_set_ne _ _ _ _ (by decide), Dict.lookup_set_ne _ _ _ _ (by decide),
      Dict.lookup_set_self]
  · rw [Dict.lookup_set_ne _ _ _ _ (by decide), Dict.lookup_set_self]
  · rw [Dict.lookup_set_self]
  · rw [Dict.lookup_set_ne _ _ _ _ h3, Dict.lookup_set_ne _ _ _ _ h2,
      Dict.lookup_set_ne _ _ _ _ h1]

theorem C4_witness :
    (add_memory true clientOk [] "u7" (some [("x", J.s "1")]) "t7").clientMetadata =
      some (mergedMetadata (some [("x", J.s "1")]) "u7" "t7") ∧
    Dict.lookup (mergedMetadata (some [("x", J.s "1")]) "u7" "t7") "timestamp" =
      some (J.s "t7") ∧
    Dict.lookup (mergedMetadata (some [("x", J.s "1")]) "u7" "t7") "source" =
      some (J.s "autoweave") ∧
    Dict.lookup (mergedMetadata (some [("x", J.s "1")]) "u7" "t7") "user_id" =
      some (J.s "u7") ∧
    Dict.lookup (mergedMetadata (some [("x", J.s "1")]) "u7" "t7") "x" =
      Dict.lookup (Option.getD (some [("x", J.s "1")]) []) "x" :=
  C4_metadata_injection clientOk [] "u7" "t7" (some [("x", J.s "1")]) "x"
    (by decide) (by decide) (by decide)

/-- C10: `metadata.update(...)` mutates the dict the caller passed in place,
so after `add_memory` on an initialized bridge with a caller-supplied dict,
the caller object is the same dict that was passed to the client add call,
holding the injected `timestamp`, `source` and `user_id` entries. -/
theorem C10_metadata_mutated_in_place (c : Client) (msgs : List Dict)
    (uid now : String) (d : Dict) :
    (add_memory true c msgs uid (some d) now).callerMetadataAfter =
      (add_memory true c msgs uid (some d) now).clientMetadata ∧
    (add_memory true c msgs uid (some d) now).callerMetadataAfter =
      some (mergedMetadata (some d) uid now) ∧
    Dict.lookup (mergedMetadata (some d) uid now) "timestamp" = some (J.s now) ∧
    Dict.lookup (mergedMetadata (some d) uid now) "source" = some (J.s "autoweave") ∧
    Dict.lookup (mergedMetadata (some d) uid now) "user_id" = some (J.s uid) := by
  have hm : mergedMetadata (some d) uid now =
      Dict.set (Dict.set (Dict.set d "timestamp" (J.s now))
        "source" (J.s "autoweave")) "user_id" (J.s uid) := rfl
  refine ⟨?_, ?_, ?_, ?_, ?_⟩
  · cases h : c.addRes msgs uid (mergedMetadata (some d) uid now) <;>
      simp [add_memory, h]
  · cases h : c.addRes msgs uid (mergedMetadata (some d) uid now) <;>
      simp [add_memory, h]
  · rw [hm, Dict.lookup_set_ne _ _ _ _ (by decide),
      Dict.lookup_set_ne _ _ _ _ (by decide), Dict.lookup_set_self]
  · rw [hm, Dict.lookup_set_ne _ _ _ _ (by decide), Dict.lookup_set_self]
  · rw [hm, Dict.lookup_set_self]

/-- Reduction of `main` once both port environment variables parse: the run
prints either the dispatched envelope with exit 0 or the dispatcher error
object with exit 1. -/
theorem Mem0.main_dispatch (pn cmd : String) (args : List String) (w : World)
    (qn mn : Int)
    (hq : pyInt ((w.env.QDRANT_PORT).getD "6333") = some qn)
    (hm : pyInt ((w.env.MEMGRAPH_PORT).getD "7687") = some mn) :
    Mem0.main (pn :: cmd :: args) w =
      match dispatch (bridgeInitialized w) w.client w.parseJson w.now cmd args with
      | .ok envl => { printed := [envl], exitCode := 0, uncaught := false }
      | .error e => { printed := [[("error", J.s e)]], exitCode := 1, uncaught := false } := by
  simp only [Mem0.main, hq, hm]

/-- C5: contrary to the spec table, the metadata JSON argument of the `add`
command is required: the dispatcher guard `len(sys.argv) < 5` fires on an
invocation with only a user id and a message, so the run prints the usage
error and exits 1 instead of calling `add_memory` (the code has an
unreachable `else` default for the metadata expression, showing the guard to
be the slip). -/
theorem C5_add_metadata_required :
    Mem0.main ["mem0-bridge.py", "add", "u1", "hello"] worldGood =
      { printed := [[("error", J.s "Usage: add <user_id> <message> <metadata_json>")]],
        exitCode := 1, uncaught := false } :=
  rfl

/-- C6. As stated the claim fails: with `QDRANT_PORT` set to a non-numeric
string, `int(os.getenv(..))` in the config construction raises a `ValueError`
outside every `try`, so the run prints no JSON object at all. -/
theorem C6_counterexample :
    (Mem0.main ["mem0-bridge.py", "health"] worldBadPort).printed = [] ∧
    (Mem0.main ["mem0-bridge.py", "health"] worldBadPort).uncaught = true :=
  ⟨rfl, rfl⟩

/-- C6 (amended): in every run with at least one command argument in which the
`QDRANT_PORT` and `MEMGRAPH_PORT` environment variables (or their defaults)
parse as integers, exactly one JSON object is printed to standard output,
whatever the command string and the remaining environment. -/
theorem C6_single_json_object (argv : List String) (w : World)
    (h2 : 2 ≤ argv.length)
    (hq : ∃ n, pyInt ((w.env.QDRANT_PORT).getD "6333") = some n)
    (hm : ∃ n, pyInt ((w.env.MEMGRAPH_PORT).getD "7687") = some n) :
    (Mem0.main argv w).printed.length = 1 ∧ (Mem0.main argv w).uncaught = false := by
  obtain ⟨qn, hqn⟩ := hq
  obtain ⟨mn, hmn⟩ := hm
  rcases argv with _ | ⟨pn, _ | ⟨cmd, args⟩⟩
  · simp at h2
  · simp at h2
  · rw [Mem0.main_dispatch pn cmd args w qn mn hqn hmn]
    cases dispatch (bridgeInitialized w) w.client w.parseJson w.now cmd args <;>
      exact ⟨rfl, rfl⟩

theorem C6_witness :
    (Mem0.main ["p", "health"] worldGood).printed.length = 1 ∧
    (Mem0.main ["p", "health"] worldGood).uncaught = false :=
  C6_single_json_object ["p", "health"] worldGood (by decide) ⟨6333, rfl⟩ ⟨7687, rfl⟩

/-- C7: two-tier error handling. On an initialized bridge, an exception inside
any data operation (or the health probe) is caught locally and the run prints
its `\x7bsuccess: false, error\x7d` envelope and exits 0; dispatcher-level
errors — a missing required argument, a malformed JSON payload, an unknown
command — print a top-level `\x7berror\x7d` object and exit 1. -/
theorem C7_two_tier_errors (c : Client) (pj : String → Except String Dict)
    (e q uid mid mstr dstr now msg : String) (md data : Dict) :
    (c.searchRes q uid 10 = .error e →
      Mem0.main ["p", "search", uid, q] (worldWith c pj now) =
        { printed := [errEnvelope e], exitCode := 0, uncaught := false }) ∧
    (pj mstr = .ok md →
      c.addRes [[("role", J.s "user"), ("content", J.s msg)]] uid
          (mergedMetadata (some md) uid now) = .error e →
      Mem0.main ["p", "add", uid, msg, mstr] (worldWith c pj now) =
        { printed := [errEnvelope e], exitCode := 0, uncaught := false }) ∧
    (c.getAllRes uid = .error e →
      Mem0.main ["p", "get_all", uid] (worldWith c pj now) =
        { printed := [errEnvelope e], exitCode := 0, uncaught := false }) ∧
    (pj dstr = .ok data → c.updateRes mid data = .error e →
      Mem0.main ["p", "update", mid, dstr] (worldWith c pj now) =
        { printed := [errEnvelope e], exitCode := 0, uncaught := false }) ∧
    (c.deleteRes mid = .error e →
      Mem0.main ["p", "delete", mid] (worldWith c pj now) =
        { printed := [errEnvelope e], exitCode := 0, uncaught := false }) ∧
    (c.searchRes "test" "health_check" 1 = .error e →
      Mem0.main ["p", "health"] (worldWith c pj now) =
        { printed := [errEnvelope e], exitCode := 0, uncaught := false }) ∧
    (Mem0.main ["p", "get_all"] (worldWith c pj now) =
      { printed := [[("error", J.s "Usage: get_all <user_id>")]],
        exitCode := 1, uncaught := false }) ∧
    (pj dstr = .error e →
      Mem0.main ["p", "update", mid, dstr] (worldWith c pj now) =
        { printed := [[("error", J.s e)]], exitCode := 1, uncaught := false }) ∧
    (Mem0.main ["p", "bogus"] (worldWith c pj now) =
      { printed := [[("error", J.s "Unknown command: bogus")]],
        exitCode := 1, uncaught := false }) := by
  have hq : pyInt (((worldWith c pj now).env.QDRANT_PORT).getD "6333") = some 6333 := rfl
  have hm : pyInt (((worldWith c pj now).env.MEMGRAPH_PORT).getD "7687") = some 7687 := rfl
  refine ⟨?_, ?_, ?_, ?_, ?_, ?_, ?_, ?_, ?_⟩ <;> intros <;>
    rw [Mem0.main_dispatch _ _ _ (worldWith c pj now) 6333 7687 hq hm] <;>
    simp_all [dispatch, worldWith, envKeySet, bridgeInitialized, add_memory,
      search_memory, get_all_memories, update_memory, delete_memory, health_check,
      errEnvelope]

theorem C7_witness :
    Mem0.main ["p", "search", "u", "q"] (worldWith (clientErr "boom") (fun _ => .ok []) "t") =
      { printed := [errEnvelope "boom"], exitCode := 0, uncaught := false } :=
  (C7_two_tier_errors (clientErr "boom") (fun _ => .ok []) "boom" "q" "u" "m" "ms"
    "ds" "t" "msg" [] []).1 rfl

/-- C8: initialization failure (here: the `OPENAI_API_KEY` check raising its
`ValueError`) is swallowed inside `_initialize_memory`, leaving a constructed
bridge with `initialized = false`; a subsequent data command hits the
not-initialized `RuntimeError`, printing a top-level error object and exiting
1, while the `health` command still prints a `success = true` envelope
reporting `functional = false` and exits 0. Nothing escapes `main` uncaught. -/
theorem C8_init_failure_degraded (w : World) (uid q mid mstr dstr msg : String)
    (md data : Dict)
    (hkey : w.env.OPENAI_API_KEY = none)
    (hq : ∃ n, pyInt ((w.env.QDRANT_PORT).getD "6333") = some n)
    (hm : ∃ n, pyInt ((w.env.MEMGRAPH_PORT).getD "7687") = some n)
    (hpj1 : w.parseJson mstr = .ok md)
    (hpj2 : w.parseJson dstr = .ok data) :
    bridgeInitialized w = false ∧
    Mem0.main ["p", "add", uid, msg, mstr] w =
      { printed := [[("error", J.s "mem0 not initialized")]], exitCode := 1, uncaught := false } ∧
    Mem0.main ["p", "search", uid, q] w =
      { printed := [[("error", J.s "mem0 not initialized")]], exitCode := 1, uncaught := false } ∧
    Mem0.main ["p", "get_all", uid] w =
      { printed := [[("error", J.s "mem0 not initialized")]], exitCode := 1, uncaught := false } ∧
    Mem0.main ["p", "update", mid, dstr] w =
      { printed := [[("error", J.s "mem0 not initialized")]], exitCode := 1, uncaught := false } ∧
    Mem0.main ["p", "delete", mid] w =
      { printed := [[("error", J.s "mem0 not initialized")]], exitCode := 1, uncaught := false } ∧
    Mem0.main ["p", "health"] w =
      { printed := [health_check false w.client w.now], exitCode := 0, uncaught := false } ∧
    Dict.lookup (health_check false w.client w.now) "success" = some (J.b true) ∧
    statusFunctional (health_check false w.client w.now) = some (J.b false) := by
  obtain ⟨qn, hqn⟩ := hq
  obtain ⟨mn, hmn⟩ := hm
  have hinit : bridgeInitialized w = false := by simp [bridgeInitialized, hkey]
  refine ⟨hinit, ?_, ?_, ?_, ?_, ?_, ?_, ?_, ?_⟩ <;>
    first
    | (rw [Mem0.main_dispatch _ _ _ w qn mn hqn hmn] <;>
       simp_all [dispatch, add_memory, search_memory, get_all_memories,
         update_memory, delete_memory])
    | simp [health_check, statusFunctional, Dict.lookup, Dict.set]

theorem C8_witness : bridgeInitialized worldNoKey = false :=
  (C8_init_failure_degraded worldNoKey "u" "q" "m" "ms" "ds" "msg" [] []
    rfl ⟨6333, rfl⟩ ⟨7687, rfl⟩ rfl rfl).1

/-- C9: the `search` command with no limit argument calls `search_memory` with
limit 10, and on an initialized bridge the client results list is passed
through unchanged inside `\x7bsuccess: true, results\x7d`; with an explicit
limit argument that limit is parsed and used. -/
theorem C9_search_default_limit (c : Client) (pj : String → Except String Dict)
    (now uid q : String) (rs rs5 : List J)
    (h10 : c.searchRes q uid 10 = .ok rs)
    (h5 : c.searchRes q uid 5 = .ok rs5) :
    search_memory true c q uid 10 = .ok [("success", J.b true), ("results", J.arr rs)] ∧
    Mem0.main ["p", "search", uid, q] (worldWith c pj now) =
      { printed := [[("success", J.b true), ("results", J.arr rs)]],
        exitCode := 0, uncaught := false } ∧
    Mem0.main ["p", "search", uid, q, "5"] (worldWith c pj now) =
      { printed := [[("success", J.b true), ("results", J.arr rs5)]],
        exitCode := 0, uncaught := false } := by
  have hq : pyInt (((worldWith c pj now).env.QDRANT_PORT).getD "6333") = some 6333 := rfl
  have hm : pyInt (((worldWith c pj now).env.MEMGRAPH_PORT).getD "7687") = some 7687 := rfl
  have h5lit : pyInt "5" = some 5 := rfl
  refine ⟨?_, ?_, ?_⟩ <;>
    try rw [Mem0.main_dispatch _ _ _ (worldWith c pj now) 6333 7687 hq hm]
  all_goals
    simp_all [dispatch, worldWith, envKeySet, bridgeInitialized, search_memory]

theorem C9_witness :
    Mem0.main ["p", "search", "u", "hello"] (worldWith client3 (fun _ => .ok []) "t") =
      { printed := [[("success", J.b true), ("results", J.arr [J.s "r1", J.s "r2", J.s "r3"])]],
        exitCode := 0, uncaught := false } :=
  (C9_search_default_limit client3 (fun _ => .ok []) "t" "u" "hello"
    [J.s "r1", J.s "r2", J.s "r3"] [J.s "r1", J.s "r2", J.s "r3"] rfl rfl).2.1
